import Mathlib

/-!
Verification of the hotel-booking voice agent (src/src/agent.py).

The core of the repository is the function tool `Assistant.book_room`, which
loads service-account credentials from the environment variable
GOOGLE_CREDENTIALS_JSON, authorizes a Google Sheets client, opens the
spreadsheet named "Hotel booking", appends one row to its first worksheet,
and converts every failure into one of four fixed result strings.  The
session handler `my_agent` additionally configures a participant-kind
conditioned noise-cancellation selector and issues one pinned greeting
between starting the session and connecting to the room.

External libraries (json, google.oauth2, gspread) are modelled by a record
of outcome functions (`GoogleApi`); the network operations attempted by a
call and the resulting worksheet rows are returned explicitly so that the
claims about side effects can be stated.
-/

namespace Agent

/-- Handle for an object produced by an external Python library (parsed
credentials dictionary, credentials object, client, worksheet).  The
embedding never inspects its contents; it only threads the handle from one
external call to the next, exactly as the source does. -/
structure PyObj where
  id : Nat
deriving DecidableEq, Repr

/-- A spreadsheet cell: the gspread append receives a heterogeneous Python
list holding four strings and one integer. -/
inductive Cell where
  | str (s : String)
  | int (n : Int)
deriving DecidableEq, Repr

/-- One network operation attempted by `book_room`, recorded in the order the
source performs them. -/
inductive NetOp where
  | authorize
  | openSheet (name : String)
  | appendRow (row : List Cell)
deriving DecidableEq, Repr

/-- Outcomes of the external library calls made by `book_room`:
`jsonLoads s = none` models `json.loads` raising JSONDecodeError on the
string `s`; each other `none` or `false` outcome models the corresponding
call raising some Exception (caught by the catch-all handler). -/
structure GoogleApi where
  jsonLoads : String → Option PyObj
  from_service_account_info : PyObj → List String → Option PyObj
  authorize : PyObj → Option PyObj
  openSheet1 : PyObj → String → Option PyObj
  append_row : PyObj → List Cell → Bool

/-- The fixed spreadsheet display name (module constant SHEET_NAME). -/
def SHEET_NAME : String := "Hotel booking"

/-- The two OAuth scopes requested by `book_room`. -/
def scopes : List String :=
  ["https://www.googleapis.com/auth/spreadsheets",
   "https://www.googleapis.com/auth/drive"]

/-- Result string for an unset (or empty) credential environment variable. -/
def msgMissing : String := "Error: System configuration error (Missing Credentials)."

/-- Result string when the credential value is not valid JSON. -/
def msgInvalid : String := "Error: System configuration error (Invalid Credentials)."

/-- Result string of a successful booking. -/
def msgSuccess : String := "Booking successfully saved to the system."

/-- Result string of the catch-all exception handler. -/
def msgGeneric : String := "An error occurred while saving the booking."

/-- Observable outcome of one `book_room` invocation: the returned string,
the network operations attempted in order, and the rows of the first
worksheet of the "Hotel booking" spreadsheet after the call (given the rows
it held before the call). -/
structure BookResult where
  message : String
  calls : List NetOp
  rows : List (List Cell)
deriving DecidableEq, Repr

/-- The row `book_room` passes to `append_row`:
[guest_name, phone, check_in, check_out, beds]. -/
def bookingRow (guest_name phone check_in check_out : String) (beds : Int) : List Cell :=
  [Cell.str guest_name, Cell.str phone, Cell.str check_in, Cell.str check_out, Cell.int beds]

/-- Shallow embedding of `Assistant.book_room`.  `google_credentials_json` is
the value of `os.getenv("GOOGLE_CREDENTIALS_JSON")` (`none` when unset); the
Python truthiness test `if not json_creds_string` is true exactly when the
variable is unset or holds the empty string.  `initRows` are the rows the
first worksheet holds before the call. -/
def book_room (api : GoogleApi) (google_credentials_json : Option String)
    (initRows : List (List Cell))
    (guest_name phone check_in check_out : String) (beds : Int) : BookResult :=
  match google_credentials_json with
  | none => { message := msgMissing, calls := [], rows := initRows }
  | some json_creds_string =>
    if json_creds_string.isEmpty then
      { message := msgMissing, calls := [], rows := initRows }
    else
      match api.jsonLoads json_creds_string with
      | none => { message := msgInvalid, calls := [], rows := initRows }
      | some creds_dict =>
        match api.from_service_account_info creds_dict scopes with
        | none => { message := msgGeneric, calls := [], rows := initRows }
        | some creds =>
          match api.authorize creds with
          | none => { message := msgGeneric, calls := [NetOp.authorize], rows := initRows }
          | some client =>
            match api.openSheet1 client SHEET_NAME with
            | none =>
              { message := msgGeneric,
                calls := [NetOp.authorize, NetOp.openSheet SHEET_NAME],
                rows := initRows }
            | some sheet =>
              if api.append_row sheet (bookingRow guest_name phone check_in check_out beds) then
                { message := msgSuccess,
                  calls := [NetOp.authorize, NetOp.openSheet SHEET_NAME,
                            NetOp.appendRow (bookingRow guest_name phone check_in check_out beds)],
                  rows := initRows ++ [bookingRow guest_name phone check_in check_out beds] }
              else
                { message := msgGeneric,
                  calls := [NetOp.authorize, NetOp.openSheet SHEET_NAME,
                            NetOp.appendRow (bookingRow guest_name phone check_in check_out beds)],
                  rows := initRows }

/-- An external world in which every library call succeeds. -/
def apiAllOk : GoogleApi :=
  { jsonLoads := fun _ => some ⟨0⟩,
    from_service_account_info := fun _ _ => some ⟨1⟩,
    authorize := fun _ => some ⟨2⟩,
    openSheet1 := fun _ _ => some ⟨3⟩,
    append_row := fun _ _ => true }

/-- An external world in which `json.loads` always raises JSONDecodeError
(the credential text is never valid JSON); in particular it raises on the
empty string, as the real json.loads does. -/
def apiJsonFails : GoogleApi :=
  { jsonLoads := fun _ => none,
    from_service_account_info := fun _ _ => some ⟨1⟩,
    authorize := fun _ => some ⟨2⟩,
    openSheet1 := fun _ _ => some ⟨3⟩,
    append_row := fun _ _ => true }

/-- An external world in which the credential text parses as JSON but
`Credentials.from_service_account_info` raises (the JSON object is not a
well-formed service-account key). -/
def apiCredsFail : GoogleApi :=
  { jsonLoads := fun _ => some ⟨0⟩,
    from_service_account_info := fun _ _ => none,
    authorize := fun _ => some ⟨2⟩,
    openSheet1 := fun _ _ => some ⟨3⟩,
    append_row := fun _ _ => true }

/-- The participant kinds of the livekit rtc SDK. -/
inductive ParticipantKind where
  | standard
  | ingress
  | egress
  | sip
  | agent
deriving DecidableEq, Repr

/-- The two noise-cancellation profiles used by the session handler. -/
inductive NoiseCancellationProfile where
  | BVC
  | BVCTelephony
deriving DecidableEq, Repr

/-- The noise-cancellation selector lambda passed to AudioInputOptions in
`my_agent`: BVCTelephony when the participant kind is SIP, otherwise BVC. -/
def noise_cancellation_selector (kind : ParticipantKind) : NoiseCancellationProfile :=
  if kind = ParticipantKind.sip then NoiseCancellationProfile.BVCTelephony
  else NoiseCancellationProfile.BVC

/-- The pinned greeting text spoken by `my_agent` (Python adjacent string
literals concatenate). -/
def greetingText : String :=
  "Namaste! Welcome to Grand Vista Hotel. " ++
  "Sure, I can help you with your booking. " ++
  "May I know your check-in and check-out dates?"

/-- One awaited step of the `my_agent` session handler. -/
inductive SessionStep where
  | startSession
  | say (text : String)
  | connect
deriving DecidableEq, Repr

/-- Whether a step is a say (utterance) step. -/
def SessionStep.isSay : SessionStep → Bool
  | SessionStep.say _ => true
  | _ => false

/-- The ordered awaited steps of `my_agent` after the session object is
built: `session.start`, then `session.say` of the pinned greeting, then
`ctx.connect`. -/
def my_agent_trace : List SessionStep :=
  [SessionStep.startSession, SessionStep.say greetingText, SessionStep.connect]

/-- Modelled from the spec: the pricing rule of the conversation policy.
The rule exists in the source only as natural-language business rules inside
the `Assistant` instructions prompt ("₹1000 per bed per night") and is not
executable code. -/
def price (beds nights : Nat) : Nat := beds * nights * 1000

/-- Modelled from the spec: the breakfast rule of the conversation policy
("Breakfast free if stay is more than 1 night"). -/
def breakfastIncluded (nights : Nat) : Bool := nights > 1

/-- C1: when the credential variable holds text the JSON parser accepts, the
credential construction, authorization, sheet open and append all succeed,
one invocation of `book_room` attempts exactly the operations authorize,
open "Hotel booking", append; appends exactly one row
[guest_name, phone, check_in, check_out, beds] in that order to the first
worksheet; and returns the success string. -/
theorem book_room_success_appends_one_row
    (api : GoogleApi) (s : String) (initRows : List (List Cell))
    (guest_name phone check_in check_out : String) (beds : Int)
    (d c cl ws : PyObj)
    (hne : s.isEmpty = false)
    (hjson : api.jsonLoads s = some d)
    (hcreds : api.from_service_account_info d scopes = some c)
    (hauth : api.authorize c = some cl)
    (hopen : api.openSheet1 cl SHEET_NAME = some ws)
    (happ : api.append_row ws (bookingRow guest_name phone check_in check_out beds) = true) :
    book_room api (some s) initRows guest_name phone check_in check_out beds =
      { message := msgSuccess,
        calls := [NetOp.authorize, NetOp.openSheet SHEET_NAME,
                  NetOp.appendRow (bookingRow guest_name phone check_in check_out beds)],
        rows := initRows ++ [bookingRow guest_name phone check_in check_out beds] } := by
  simp [book_room, hne, hjson, hcreds, hauth, hopen, happ]

/-- Witness for C1 at a concrete input in the all-success world. -/
theorem book_room_success_appends_one_row_witness :
    book_room apiAllOk (some "creds") [] "Rahul Sharma" "9999999999" "12 March" "14 March" 2 =
      { message := msgSuccess,
        calls := [NetOp.authorize, NetOp.openSheet SHEET_NAME,
                  NetOp.appendRow (bookingRow "Rahul Sharma" "9999999999" "12 March" "14 March" 2)],
        rows := [] ++ [bookingRow "Rahul Sharma" "9999999999" "12 March" "14 March" 2] } :=
  book_room_success_appends_one_row apiAllOk "creds" [] "Rahul Sharma" "9999999999"
    "12 March" "14 March" 2 ⟨0⟩ ⟨1⟩ ⟨2⟩ ⟨3⟩ (by decide) rfl rfl rfl rfl rfl

/-- C2: when GOOGLE_CREDENTIALS_JSON is unset, `book_room` attempts no
network operation, leaves the worksheet rows unchanged, and returns the
missing-credentials message. -/
theorem book_room_unset_env_no_network
    (api : GoogleApi) (initRows : List (List Cell))
    (guest_name phone check_in check_out : String) (beds : Int) :
    book_room api none initRows guest_name phone check_in check_out beds =
      { message := msgMissing, calls := [], rows := initRows } := rfl

/-- C3 counterexample: the empty string is set text that is not valid JSON
(json.loads raises on it, modelled by `apiJsonFails.jsonLoads "" = none`),
yet `book_room` returns the missing-credentials message, not the
invalid-credentials message. -/
theorem book_room_empty_string_not_invalid_msg :
    Agent.apiJsonFails.jsonLoads "" = none ∧
    (book_room apiJsonFails (some "") [] "g" "p" "ci" "co" 1).message = msgMissing ∧
    (book_room apiJsonFails (some "") [] "g" "p" "ci" "co" 1).message ≠ msgInvalid := by
  refine ⟨rfl, rfl, ?_⟩
  decide

/-- C3 amended: when GOOGLE_CREDENTIALS_JSON is set to NONEMPTY text that is
not valid JSON, `book_room` attempts no network operation, leaves the rows
unchanged, and returns the invalid-credentials message, which differs from
the missing-credentials message. -/
theorem book_room_invalid_json_nonempty
    (api : GoogleApi) (s : String) (initRows : List (List Cell))
    (guest_name phone check_in check_out : String) (beds : Int)
    (hne : s.isEmpty = false)
    (hjson : api.jsonLoads s = none) :
    book_room api (some s) initRows guest_name phone check_in check_out beds =
      { message := msgInvalid, calls := [], rows := initRows } ∧
    msgInvalid ≠ msgMissing := by
  refine ⟨by simp [book_room, hne, hjson], by decide⟩

/-- Witness for the amended C3 at the concrete non-JSON text "not-json". -/
theorem book_room_invalid_json_nonempty_witness :
    book_room apiJsonFails (some "not-json") [] "g" "p" "ci" "co" 1 =
      { message := msgInvalid, calls := [], rows := [] } ∧
    msgInvalid ≠ msgMissing :=
  book_room_invalid_json_nonempty apiJsonFails "not-json" [] "g" "p" "ci" "co" 1
    (by decide) rfl

/-- C4: `book_room` is total on the embedding and every outcome of the
environment and the external services yields one of exactly four result
strings: success, missing credentials, invalid credentials, or the generic
failure message. -/
theorem book_room_four_messages_only
    (api : GoogleApi) (env : Option String) (initRows : List (List Cell))
    (guest_name phone check_in check_out : String) (beds : Int) :
    (book_room api env initRows guest_name phone check_in check_out beds).message = msgSuccess ∨
    (book_room api env initRows guest_name phone check_in check_out beds).message = msgMissing ∨
    (book_room api env initRows guest_name phone check_in check_out beds).message = msgInvalid ∨
    (book_room api env initRows guest_name phone check_in check_out beds).message = msgGeneric := by
  unfold book_room
  repeat' split
  all_goals simp

/-- C5: `book_room` validates none of its five fields: for arbitrary strings
and an arbitrary integer bed count (including values above 2, zero or
negative), with reachable services it appends the row with exactly the given
values and returns the success string, never a validation error. -/
theorem book_room_no_field_validation
    (api : GoogleApi) (s : String) (initRows : List (List Cell))
    (guest_name phone check_in check_out : String) (beds : Int)
    (d c cl ws : PyObj)
    (hne : s.isEmpty = false)
    (hjson : api.jsonLoads s = some d)
    (hcreds : api.from_service_account_info d scopes = some c)
    (hauth : api.authorize c = some cl)
    (hopen : api.openSheet1 cl SHEET_NAME = some ws)
    (happ : api.append_row ws (bookingRow guest_name phone check_in check_out beds) = true) :
    (book_room api (some s) initRows guest_name phone check_in check_out beds).rows =
      initRows ++ [bookingRow guest_name phone check_in check_out beds] ∧
    (book_room api (some s) initRows guest_name phone check_in check_out beds).message =
      msgSuccess := by
  constructor <;> simp [book_room, hne, hjson, hcreds, hauth, hopen, happ]

/-- Witness for C5 with beds = 5, above the business-rule maximum of 2: the
tool still appends the row as given and reports success. -/
theorem book_room_no_field_validation_witness :
    (book_room apiAllOk (some "creds") [] "g" "p" "ci" "co" 5).rows =
      [] ++ [bookingRow "g" "p" "ci" "co" 5] ∧
    (book_room apiAllOk (some "creds") [] "g" "p" "ci" "co" 5).message = msgSuccess :=
  book_room_no_field_validation apiAllOk "creds" [] "g" "p" "ci" "co" 5
    ⟨0⟩ ⟨1⟩ ⟨2⟩ ⟨3⟩ (by decide) rfl rfl rfl rfl rfl

/-- C6: the conversation policy pricing rule gives beds × nights × 1000
rupees with breakfast free exactly when nights exceed 1: 6000 with breakfast
for beds 2, nights 3; 1000 without breakfast for beds 1, nights 1. -/
theorem pricing_rule_cases :
    price 2 3 = 6000 ∧ breakfastIncluded 3 = true ∧
    price 1 1 = 1000 ∧ breakfastIncluded 1 = false ∧
    (∀ nights : Nat, breakfastIncluded nights = true ↔ nights > 1) := by
  refine ⟨rfl, rfl, rfl, rfl, fun nights => ?_⟩
  simp [breakfastIncluded]

/-- C7: the noise-cancellation selector is a function of the participant
kind: BVCTelephony for a SIP participant, BVC for every other kind. -/
theorem noise_cancellation_selector_by_kind :
    noise_cancellation_selector ParticipantKind.sip = NoiseCancellationProfile.BVCTelephony ∧
    ∀ k : ParticipantKind, k ≠ ParticipantKind.sip →
      noise_cancellation_selector k = NoiseCancellationProfile.BVC := by
  refine ⟨rfl, fun k hk => ?_⟩
  simp [noise_cancellation_selector, hk]

/-- Witness for C7 at the concrete non-SIP kind standard. -/
theorem noise_cancellation_selector_by_kind_witness :
    noise_cancellation_selector ParticipantKind.standard = NoiseCancellationProfile.BVC :=
  noise_cancellation_selector_by_kind.2 ParticipantKind.standard (by decide)

/-- C8: the session handler issues exactly one say step, and the pinned
greeting say step comes after the session start step and before the connect
step in the execution order of `my_agent`. -/
theorem greeting_once_between_start_and_connect :
    (my_agent_trace.filter SessionStep.isSay) = [SessionStep.say greetingText] ∧
    my_agent_trace.indexOf SessionStep.startSession <
      my_agent_trace.indexOf (SessionStep.say greetingText) ∧
    my_agent_trace.indexOf (SessionStep.say greetingText) <
      my_agent_trace.indexOf SessionStep.connect := by
  refine ⟨?_, ?_, ?_⟩ <;> decide

/-- C9: when GOOGLE_CREDENTIALS_JSON is set but empty, the Python truthiness
test classifies it as absent: `book_room` attempts no network operation,
leaves the rows unchanged, and returns the missing-credentials message, not
the invalid-JSON message. -/
theorem book_room_empty_env_classified_missing
    (api : GoogleApi) (initRows : List (List Cell))
    (guest_name phone check_in check_out : String) (beds : Int) :
    book_room api (some "") initRows guest_name phone check_in check_out beds =
      { message := msgMissing, calls := [], rows := initRows } ∧
    msgMissing ≠ msgInvalid := by
  refine ⟨rfl, by decide⟩

/-- C10: when the credential text parses as JSON but the service-account
credential construction fails, `book_room` returns the generic failure
message — distinct from both configuration-error messages — and the catch
happens before any network operation, so no row is appended. -/
theorem book_room_bad_key_generic_message
    (api : GoogleApi) (s : String) (initRows : List (List Cell))
    (guest_name phone check_in check_out : String) (beds : Int) (d : PyObj)
    (hne : s.isEmpty = false)
    (hjson : api.jsonLoads s = some d)
    (hcreds : api.from_service_account_info d scopes = none) :
    book_room api (some s) initRows guest_name phone check_in check_out beds =
      { message := msgGeneric, calls := [], rows := initRows } ∧
    msgGeneric ≠ msgMissing ∧ msgGeneric ≠ msgInvalid := by
  refine ⟨by simp [book_room, hne, hjson, hcreds], by decide, by decide⟩

/-- Witness for C10 in a world where the parsed JSON is not a well-formed
service-account key. -/
theorem book_room_bad_key_generic_message_witness :
    book_room apiCredsFail (some "why") [] "g" "p" "ci" "co" 1 =
      { message := msgGeneric, calls := [], rows := [] } ∧
    msgGeneric ≠ msgMissing ∧ msgGeneric ≠ msgInvalid :=
  book_room_bad_key_generic_message apiCredsFail "why" [] "g" "p" "ci" "co" 1
    ⟨0⟩ (by decide) rfl rfl

end Agent
